import Mathlib

/-!
Verification of the cipher-suite selection subsystem of
`lib/algorithms/ciphersuites.c` (GnuTLS): the suite registry, the
credential/parameter availability checks, the server-side negotiation
algorithm `_gnutls_figure_common_ciphersuite`, the client offer builder
`_gnutls_get_client_ciphersuites` and the priority-index mapper
`gnutls_priority_get_cipher_suite_index`.

The embedding fixes one build configuration: `ENABLE_SSL3`, `ENABLE_ANON`,
`ENABLE_PSK`, `ENABLE_SRP` are all defined (so `GNUTLS_SSL3 = 1` and the
SCSV branch of the client builder is compiled in).  Runtime availability
of cipher/MAC primitives (`_gnutls_cipher_exists`, `_gnutls_mac_exists`)
is kept abstract as predicate parameters.

Pointers into the static `cs_algorithms` table are modelled as the entry
values themselves (rows of the table are pairwise distinct, so structural
equality coincides with pointer equality); in the priority-index mapper,
where the code compares against `&cs_algorithms[i]`, they are modelled as
registry indices.
-/

/-! ## Protocol, algorithm and credential identifiers

Numeric values of the public `gnutls_protocol_t`, `gnutls_kx_algorithm_t`,
`gnutls_cipher_algorithm_t`, `gnutls_mac_algorithm_t` and
`gnutls_credentials_type_t` enums, from the library headers (which are not
part of this excerpt); the negotiation logic only depends on their
distinctness and on the numeric order of the protocol versions. -/

def GNUTLS_SSL3 : Nat := 1

def GNUTLS_TLS1 : Nat := 2

def GNUTLS_TLS1_1 : Nat := 3

def GNUTLS_TLS1_2 : Nat := 4

def GNUTLS_TLS1_3 : Nat := 5

def GNUTLS_DTLS0_9 : Nat := 200

def GNUTLS_DTLS1_0 : Nat := 201

def GNUTLS_DTLS1_2 : Nat := 202

def GNUTLS_VERSION_UNKNOWN : Nat := 255

def GNUTLS_DTLS_VERSION_MIN : Nat := GNUTLS_DTLS1_0

def GNUTLS_TLS_VERSION_MAX : Nat := GNUTLS_TLS1_3

def GNUTLS_DTLS_VERSION_MAX : Nat := GNUTLS_DTLS1_2

def GNUTLS_KX_UNKNOWN : Nat := 0

def GNUTLS_KX_RSA : Nat := 1

def GNUTLS_KX_DHE_DSS : Nat := 2

def GNUTLS_KX_DHE_RSA : Nat := 3

def GNUTLS_KX_ANON_DH : Nat := 4

def GNUTLS_KX_SRP : Nat := 5

def GNUTLS_KX_SRP_RSA : Nat := 7

def GNUTLS_KX_SRP_DSS : Nat := 8

def GNUTLS_KX_PSK : Nat := 9

def GNUTLS_KX_DHE_PSK : Nat := 10

def GNUTLS_KX_ANON_ECDH : Nat := 11

def GNUTLS_KX_ECDHE_RSA : Nat := 12

def GNUTLS_KX_ECDHE_ECDSA : Nat := 13

def GNUTLS_KX_ECDHE_PSK : Nat := 14

def GNUTLS_KX_RSA_PSK : Nat := 15

def GNUTLS_KX_VKO_GOST_12 : Nat := 16

def GNUTLS_CRD_CERTIFICATE : Nat := 1

def GNUTLS_CRD_ANON : Nat := 2

def GNUTLS_CRD_SRP : Nat := 3

def GNUTLS_CRD_PSK : Nat := 4

def GNUTLS_CIPHER_NULL : Nat := 1

def GNUTLS_CIPHER_ARCFOUR_128 : Nat := 2

def GNUTLS_CIPHER_3DES_CBC : Nat := 3

def GNUTLS_CIPHER_AES_128_CBC : Nat := 4

def GNUTLS_CIPHER_AES_256_CBC : Nat := 5

def GNUTLS_CIPHER_AES_128_GCM : Nat := 10

def GNUTLS_CIPHER_AES_256_GCM : Nat := 11

def GNUTLS_CIPHER_AES_128_CCM : Nat := 19

def GNUTLS_CIPHER_AES_128_CCM_8 : Nat := 21

def GNUTLS_CIPHER_CHACHA20_POLY1305 : Nat := 23

def GNUTLS_MAC_MD5 : Nat := 2

def GNUTLS_MAC_SHA1 : Nat := 3

def GNUTLS_MAC_SHA256 : Nat := 6

def GNUTLS_MAC_SHA384 : Nat := 7

def GNUTLS_MAC_AEAD : Nat := 200

/-! Error codes, from the public header (not in this excerpt); only their
distinctness matters. -/

def GNUTLS_E_UNKNOWN_CIPHER_SUITE : Int := -21

def GNUTLS_E_REQUESTED_DATA_NOT_AVAILABLE : Int := -56

def GNUTLS_E_NO_CIPHER_SUITES : Int := -87

def GNUTLS_E_NO_PRIORITIES_WERE_SET : Int := -326

/-! ## Data model -/

/-- A row of the `cs_algorithms` registry
(`gnutls_cipher_suite_entry_st`). -/
structure CipherSuiteEntry where
  name : String
  id0 : Nat
  id1 : Nat
  canonical_name : String
  block_algorithm : Nat
  kx_algorithm : Nat
  mac_algorithm : Nat
  min_version : Nat
  max_version : Nat
  min_dtls_version : Nat
  max_dtls_version : Nat
  prf : Nat
deriving DecidableEq, Repr

/-- The `ENTRY` macro: legacy suite, TLS range `min_version..TLS1.2`,
DTLS range `dtls_version..DTLS1.2`, PRF SHA256. -/
def ENTRY (name : String) (id0 id1 : Nat) (canonical_name : String)
    (block_algorithm kx_algorithm mac_algorithm min_version dtls_version :
      Nat) : CipherSuiteEntry :=
  { name := name, id0 := id0, id1 := id1, canonical_name := canonical_name
    block_algorithm := block_algorithm, kx_algorithm := kx_algorithm
    mac_algorithm := mac_algorithm, min_version := min_version
    max_version := GNUTLS_TLS1_2, min_dtls_version := dtls_version
    max_dtls_version := GNUTLS_DTLS1_2, prf := GNUTLS_MAC_SHA256 }

/-- The `ENTRY_PRF` macro: as `ENTRY` with an explicit PRF. -/
def ENTRY_PRF (name : String) (id0 id1 : Nat) (canonical_name : String)
    (block_algorithm kx_algorithm mac_algorithm min_version dtls_version
      prf : Nat) : CipherSuiteEntry :=
  { name := name, id0 := id0, id1 := id1, canonical_name := canonical_name
    block_algorithm := block_algorithm, kx_algorithm := kx_algorithm
    mac_algorithm := mac_algorithm, min_version := min_version
    max_version := GNUTLS_TLS1_2, min_dtls_version := dtls_version
    max_dtls_version := GNUTLS_DTLS1_2, prf := prf }

/-- The `ENTRY_TLS13` macro: kx 0 (none), MAC AEAD, TLS range
`min_version..TLS1.3`, both DTLS bounds the unknown-version sentinel. -/
def ENTRY_TLS13 (name : String) (id0 id1 : Nat) (canonical_name : String)
    (block_algorithm min_version prf : Nat) : CipherSuiteEntry :=
  { name := name, id0 := id0, id1 := id1, canonical_name := canonical_name
    block_algorithm := block_algorithm, kx_algorithm := 0
    mac_algorithm := GNUTLS_MAC_AEAD, min_version := min_version
    max_version := GNUTLS_TLS1_3
    min_dtls_version := GNUTLS_VERSION_UNKNOWN
    max_dtls_version := GNUTLS_VERSION_UNKNOWN, prf := prf }

/-- A `gnutls_group_entry_st` (named DH/EC group), kept abstract by id. -/
structure GroupEntry where
  id : Nat
deriving DecidableEq, Repr

/-- Modelled from the spec: `_gnutls_id_to_group(DEFAULT_EC_GROUP)` (both
defined outside this excerpt) yields the secp256r1-equivalent default
curve used for legacy clients that omit the supported-groups
extension. -/
def default_ec_group : GroupEntry := { id := 3 }

/-- The DH-parameter fields shared by the certificate, anonymous and PSK
server credential structures (`dh_params`, `params_func`,
`dh_sec_param`), plus mere presence for other credential kinds. -/
structure CredentialsSt where
  dh_params : Bool
  params_func : Bool
  dh_sec_param : Bool
deriving DecidableEq, Repr

/-- A `version_entry_st` as used here: numeric id and the
`tls13_sem` flag. -/
structure VersionEntry where
  id : Nat
  tls13_sem : Bool
deriving DecidableEq, Repr

/-- The slice of `gnutls_session_t` state read (and written) by this
subsystem.  `creds` models `_gnutls_get_cred`: the credential structure
configured for a credential type, if any.  `etm_ext_priv` models the raw
ETM hello-extension private data (`_gnutls_hello_ext_get_priv`). -/
structure Session where
  is_dtls : Bool
  version : Option VersionEntry
  vmax : Option VersionEntry
  server_precedence : Bool
  force_etm : Bool
  etm_ext_priv : Option Int
  supported_groups_ext_present : Bool
  cand_ec_group : Option GroupEntry
  cand_dh_group : Option GroupEntry
  hsk_have_ffdhe : Bool
  hsk_psk_selected : Bool
  binder0_prf_id : Nat
  creds : Nat → Option CredentialsSt
  premaster_set : Bool
  fallback : Bool
  priorities_cs : List CipherSuiteEntry

/-! ## Key-exchange classification helpers

These live in `lib/algorithms/kx.c`, outside this excerpt. -/

/-- Modelled from the spec: `_gnutls_kx_is_ecc` — the ECDHE families
(ECDHE-RSA, ECDHE-ECDSA, anonymous ECDH, ECDHE-PSK). -/
def _gnutls_kx_is_ecc (kx : Nat) : Bool :=
  kx == GNUTLS_KX_ANON_ECDH || kx == GNUTLS_KX_ECDHE_RSA ||
    kx == GNUTLS_KX_ECDHE_ECDSA || kx == GNUTLS_KX_ECDHE_PSK

/-- Modelled from the spec: `_gnutls_kx_is_dhe` — the finite-field DHE
families (DHE-DSS, DHE-RSA, anonymous DH, DHE-PSK). -/
def _gnutls_kx_is_dhe (kx : Nat) : Bool :=
  kx == GNUTLS_KX_DHE_DSS || kx == GNUTLS_KX_DHE_RSA ||
    kx == GNUTLS_KX_ANON_DH || kx == GNUTLS_KX_DHE_PSK

/-- Modelled from the spec: `_gnutls_kx_needs_dh_params` — exactly the
finite-field DHE families need server-side DH parameters. -/
def _gnutls_kx_needs_dh_params (kx : Nat) : Bool :=
  _gnutls_kx_is_dhe kx

/-- Modelled from the spec: `_gnutls_map_kx_get_cred` — the credential
type backing each key-exchange family (certificate, anonymous, SRP or
PSK); the server/client flag does not change the mapping for the
families used here. -/
def _gnutls_map_kx_get_cred (kx : Nat) (_server : Bool) : Nat :=
  if kx == GNUTLS_KX_ANON_DH || kx == GNUTLS_KX_ANON_ECDH then
    GNUTLS_CRD_ANON
  else if kx == GNUTLS_KX_SRP || kx == GNUTLS_KX_SRP_RSA ||
      kx == GNUTLS_KX_SRP_DSS then
    GNUTLS_CRD_SRP
  else if kx == GNUTLS_KX_PSK || kx == GNUTLS_KX_DHE_PSK ||
      kx == GNUTLS_KX_ECDHE_PSK || kx == GNUTLS_KX_RSA_PSK then
    GNUTLS_CRD_PSK
  else
    GNUTLS_CRD_CERTIFICATE

/-- Modelled from the spec: `cipher_to_entry` / `_gnutls_cipher_type`,
restricted to the classification the `CIPHER_CHECK` macro needs —
`some true` for block (CBC) ciphers, `some false` for stream/AEAD
ciphers, `none` when `cipher_to_entry` finds no entry. -/
def cipher_type_is_block (algo : Nat) : Option Bool :=
  if algo == GNUTLS_CIPHER_3DES_CBC || algo == GNUTLS_CIPHER_AES_128_CBC ||
      algo == GNUTLS_CIPHER_AES_256_CBC then
    some true
  else if algo == GNUTLS_CIPHER_NULL ||
      algo == GNUTLS_CIPHER_ARCFOUR_128 ||
      algo == GNUTLS_CIPHER_AES_128_GCM ||
      algo == GNUTLS_CIPHER_AES_256_GCM ||
      algo == GNUTLS_CIPHER_AES_128_CCM ||
      algo == GNUTLS_CIPHER_AES_128_CCM_8 ||
      algo == GNUTLS_CIPHER_CHACHA20_POLY1305 then
    some false
  else
    none

/-! ## check_server_dh_params and kx_is_ok -/

/-- `check_server_dh_params`: true iff the key exchange either needs no
DH parameters, or (no FFDHE advertised by the peer and) the
credential structure of the given type carries explicit parameters, a
generation callback, or a security-parameter auto-selection. -/
def check_server_dh_params (session : Session) (cred_type : Nat)
    (kx : Nat) : Bool :=
  if !(_gnutls_kx_needs_dh_params kx) then
    true
  else if session.hsk_have_ffdhe then
    false
  else if cred_type == GNUTLS_CRD_CERTIFICATE ||
      cred_type == GNUTLS_CRD_ANON || cred_type == GNUTLS_CRD_PSK then
    match session.creds cred_type with
    | some c => c.dh_params || c.params_func || c.dh_sec_param
    | none => false
  else
    true

/-- `kx_is_ok`: `none` models returning 0; `some sgroup` models
returning 1 with `*sgroup` left as `sgroup` (reset to null by the caller
before each call). -/
def kx_is_ok (session : Session) (kx : Nat) (cred_type : Nat) :
    Option (Option GroupEntry) :=
  let step :=
    if _gnutls_kx_is_ecc kx then
      match session.cand_ec_group with
      | none => none
      | some g => some (some g)
    else if _gnutls_kx_is_dhe kx then
      match session.cand_dh_group with
      | none =>
        if check_server_dh_params session cred_type kx then some none
        else none
      | some g => some (some g)
    else
      some none
  match step with
  | none => none
  | some g =>
    if (kx == GNUTLS_KX_SRP_RSA || kx == GNUTLS_KX_SRP_DSS) &&
        (session.creds GNUTLS_CRD_SRP).isNone then
      none
    else
      some g

/-! ## The cipher-suite registry

`cs_algorithms`, restricted to a representative subset of the rows (the
full table literal is mechanical data; every row is built by one of the
three `ENTRY*` macros above).  Ids, algorithms and version ranges are
copied from the source rows. -/

def GNUTLS_AES_128_GCM_SHA256 : CipherSuiteEntry :=
  ENTRY_TLS13 "GNUTLS_AES_128_GCM_SHA256" 0x13 0x01
    "TLS_AES_128_GCM_SHA256" GNUTLS_CIPHER_AES_128_GCM GNUTLS_TLS1_3
    GNUTLS_MAC_SHA256

def GNUTLS_AES_256_GCM_SHA384 : CipherSuiteEntry :=
  ENTRY_TLS13 "GNUTLS_AES_256_GCM_SHA384" 0x13 0x02
    "TLS_AES_256_GCM_SHA384" GNUTLS_CIPHER_AES_256_GCM GNUTLS_TLS1_3
    GNUTLS_MAC_SHA384

def GNUTLS_CHACHA20_POLY1305_SHA256 : CipherSuiteEntry :=
  ENTRY_TLS13 "GNUTLS_CHACHA20_POLY1305_SHA256" 0x13 0x03
    "TLS_CHACHA20_POLY1305_SHA256" GNUTLS_CIPHER_CHACHA20_POLY1305
    GNUTLS_TLS1_3 GNUTLS_MAC_SHA256

def GNUTLS_AES_128_CCM_SHA256 : CipherSuiteEntry :=
  ENTRY_TLS13 "GNUTLS_AES_128_CCM_SHA256" 0x13 0x04
    "TLS_AES_128_CCM_SHA256" GNUTLS_CIPHER_AES_128_CCM GNUTLS_TLS1_3
    GNUTLS_MAC_SHA256

def GNUTLS_AES_128_CCM_8_SHA256 : CipherSuiteEntry :=
  ENTRY_TLS13 "GNUTLS_AES_128_CCM_8_SHA256" 0x13 0x05
    "TLS_AES_128_CCM_8_SHA256" GNUTLS_CIPHER_AES_128_CCM_8 GNUTLS_TLS1_3
    GNUTLS_MAC_SHA256

def GNUTLS_RSA_NULL_MD5 : CipherSuiteEntry :=
  ENTRY "GNUTLS_RSA_NULL_MD5" 0x00 0x01 "TLS_RSA_WITH_NULL_MD5"
    GNUTLS_CIPHER_NULL GNUTLS_KX_RSA GNUTLS_MAC_MD5 GNUTLS_SSL3
    GNUTLS_DTLS_VERSION_MIN

def GNUTLS_RSA_ARCFOUR_128_SHA1 : CipherSuiteEntry :=
  ENTRY "GNUTLS_RSA_ARCFOUR_128_SHA1" 0x00 0x05 "TLS_RSA_WITH_RC4_128_SHA"
    GNUTLS_CIPHER_ARCFOUR_128 GNUTLS_KX_RSA GNUTLS_MAC_SHA1 GNUTLS_SSL3
    GNUTLS_VERSION_UNKNOWN

def GNUTLS_RSA_AES_128_CBC_SHA1 : CipherSuiteEntry :=
  ENTRY "GNUTLS_RSA_AES_128_CBC_SHA1" 0x00 0x2F
    "TLS_RSA_WITH_AES_128_CBC_SHA" GNUTLS_CIPHER_AES_128_CBC GNUTLS_KX_RSA
    GNUTLS_MAC_SHA1 GNUTLS_SSL3 GNUTLS_DTLS_VERSION_MIN

def GNUTLS_RSA_AES_256_CBC_SHA1 : CipherSuiteEntry :=
  ENTRY "GNUTLS_RSA_AES_256_CBC_SHA1" 0x00 0x35
    "TLS_RSA_WITH_AES_256_CBC_SHA" GNUTLS_CIPHER_AES_256_CBC GNUTLS_KX_RSA
    GNUTLS_MAC_SHA1 GNUTLS_SSL3 GNUTLS_DTLS_VERSION_MIN

def GNUTLS_RSA_AES_128_GCM_SHA256 : CipherSuiteEntry :=
  ENTRY "GNUTLS_RSA_AES_128_GCM_SHA256" 0x00 0x9C
    "TLS_RSA_WITH_AES_128_GCM_SHA256" GNUTLS_CIPHER_AES_128_GCM
    GNUTLS_KX_RSA GNUTLS_MAC_AEAD GNUTLS_TLS1_2 GNUTLS_DTLS1_2

def GNUTLS_DHE_RSA_AES_128_CBC_SHA1 : CipherSuiteEntry :=
  ENTRY "GNUTLS_DHE_RSA_AES_128_CBC_SHA1" 0x00 0x33
    "TLS_DHE_RSA_WITH_AES_128_CBC_SHA" GNUTLS_CIPHER_AES_128_CBC
    GNUTLS_KX_DHE_RSA GNUTLS_MAC_SHA1 GNUTLS_SSL3 GNUTLS_DTLS_VERSION_MIN

def GNUTLS_ECDHE_RSA_AES_128_GCM_SHA256 : CipherSuiteEntry :=
  ENTRY "GNUTLS_ECDHE_RSA_AES_128_GCM_SHA256" 0xC0 0x2F
    "TLS_ECDHE_RSA_WITH_AES_128_GCM_SHA256" GNUTLS_CIPHER_AES_128_GCM
    GNUTLS_KX_ECDHE_RSA GNUTLS_MAC_AEAD GNUTLS_TLS1_2 GNUTLS_DTLS1_2

def GNUTLS_PSK_AES_128_CBC_SHA1 : CipherSuiteEntry :=
  ENTRY "GNUTLS_PSK_AES_128_CBC_SHA1" 0x00 0x8C
    "TLS_PSK_WITH_AES_128_CBC_SHA" GNUTLS_CIPHER_AES_128_CBC GNUTLS_KX_PSK
    GNUTLS_MAC_SHA1 GNUTLS_SSL3 GNUTLS_DTLS_VERSION_MIN

def GNUTLS_DHE_PSK_AES_128_CBC_SHA1 : CipherSuiteEntry :=
  ENTRY "GNUTLS_DHE_PSK_AES_128_CBC_SHA1" 0x00 0x90
    "TLS_DHE_PSK_WITH_AES_128_CBC_SHA" GNUTLS_CIPHER_AES_128_CBC
    GNUTLS_KX_DHE_PSK GNUTLS_MAC_SHA1 GNUTLS_SSL3 GNUTLS_DTLS_VERSION_MIN

def cs_algorithms : List CipherSuiteEntry :=
  [GNUTLS_AES_128_GCM_SHA256, GNUTLS_AES_256_GCM_SHA384,
    GNUTLS_CHACHA20_POLY1305_SHA256, GNUTLS_AES_128_CCM_SHA256,
    GNUTLS_AES_128_CCM_8_SHA256, GNUTLS_RSA_NULL_MD5,
    GNUTLS_RSA_ARCFOUR_128_SHA1, GNUTLS_RSA_AES_128_CBC_SHA1,
    GNUTLS_RSA_AES_256_CBC_SHA1, GNUTLS_RSA_AES_128_GCM_SHA256,
    GNUTLS_DHE_RSA_AES_128_CBC_SHA1, GNUTLS_ECDHE_RSA_AES_128_GCM_SHA256,
    GNUTLS_PSK_AES_128_CBC_SHA1, GNUTLS_DHE_PSK_AES_128_CBC_SHA1]

/-! ## Server-side negotiation: `_gnutls_figure_common_ciphersuite` -/

/-- The `VERSION_CHECK` macro: true when the candidate must be skipped
because its version range for the active transport does not bracket the
negotiated version (or is the unknown-version sentinel). -/
def version_check_fails (is_dtls : Bool) (version : VersionEntry)
    (e : CipherSuiteEntry) : Bool :=
  if is_dtls then
    e.min_dtls_version == GNUTLS_VERSION_UNKNOWN ||
      decide (version.id < e.min_dtls_version) ||
      decide (version.id > e.max_dtls_version)
  else
    e.min_version == GNUTLS_VERSION_UNKNOWN ||
      decide (version.id < e.min_version) ||
      decide (version.id > e.max_version)

/-- The `CIPHER_CHECK` macro: true when the candidate must be skipped
because encrypt-then-MAC is forced locally, not yet negotiated, and the
candidate's cipher is a block cipher (or unknown). -/
def cipher_check_fails (force_etm have_etm : Bool) (algo : Nat) : Bool :=
  if force_etm && !have_etm then
    match cipher_type_is_block algo with
    | none => true
    | some b => b
  else
    false

/-- The credential type the negotiation derives per candidate:
certificate-based under TLS 1.3 semantics regardless of `kx`, else
mapped from the key-exchange family. -/
def derived_cred_type (version : VersionEntry) (kx : Nat) : Nat :=
  if version.tls13_sem then GNUTLS_CRD_CERTIFICATE
  else _gnutls_map_kx_get_cred kx true

/-- Whether encrypt-then-MAC was negotiated, read from the raw ETM
extension data (`_gnutls_hello_ext_get_priv`). -/
def session_have_etm (session : Session) : Bool :=
  match session.etm_ext_priv with
  | some v => v != 0
  | none => false

/-- Outcome of one inner-list search for a fixed outer candidate:
a full match (`found`), no inner element equal to the outer candidate
(`notFound`), or a `break` that abandons the rest of the inner list
(`abandoned`). -/
inductive InnerRes where
  | found (e : CipherSuiteEntry) (sgroup : Option GroupEntry)
  | notFound
  | abandoned
deriving DecidableEq, Repr

/-- Inner loop of the client-precedence pass (outer = peer list, inner =
local priority list): `kx_is_ok` failure and a PSK-binder PRF mismatch
`continue`; a certificate-selection failure `break`s. -/
def inner_loop_prio (session : Session)
    (selectCert : CipherSuiteEntry → Int) (pe : CipherSuiteEntry)
    (kx cred_type : Nat) : List CipherSuiteEntry → InnerRes
  | [] => .notFound
  | c :: rest =>
    if c = pe then
      match kx_is_ok session kx cred_type with
      | none => inner_loop_prio session selectCert pe kx cred_type rest
      | some sgroup =>
        if session.hsk_psk_selected then
          if session.binder0_prf_id ≠ c.prf then
            inner_loop_prio session selectCert pe kx cred_type rest
          else
            .found pe sgroup
        else if cred_type == GNUTLS_CRD_CERTIFICATE then
          if selectCert pe < 0 then .abandoned
          else .found pe sgroup
        else
          .found pe sgroup
    else
      inner_loop_prio session selectCert pe kx cred_type rest

/-- Outer loop of the client-precedence pass, driven by the peer list. -/
def outer_loop_peer (session : Session) (version : VersionEntry)
    (have_etm : Bool) (selectCert : CipherSuiteEntry → Int) :
    List CipherSuiteEntry → Option (CipherSuiteEntry × Option GroupEntry)
  | [] => none
  | pe :: rest =>
    if version_check_fails session.is_dtls version pe then
      outer_loop_peer session version have_etm selectCert rest
    else if cipher_check_fails session.force_etm have_etm
        pe.block_algorithm then
      outer_loop_peer session version have_etm selectCert rest
    else
      let kx := pe.kx_algorithm
      match inner_loop_prio session selectCert pe kx
          (derived_cred_type version kx) session.priorities_cs with
      | .found e sgroup => some (e, sgroup)
      | _ => outer_loop_peer session version have_etm selectCert rest

/-- Inner loop of the server-precedence pass (outer = local priority
list `c`, inner = peer list): here `kx_is_ok` failure, PRF mismatch and
certificate-selection failure all `break`. -/
def inner_loop_peer (session : Session) (version : VersionEntry)
    (selectCert : CipherSuiteEntry → Int) (c : CipherSuiteEntry) :
    List CipherSuiteEntry → InnerRes
  | [] => .notFound
  | pe :: rest =>
    if c = pe then
      let kx := pe.kx_algorithm
      let cred_type := derived_cred_type version kx
      match kx_is_ok session kx cred_type with
      | none => .abandoned
      | some sgroup =>
        if session.hsk_psk_selected then
          if session.binder0_prf_id ≠ c.prf then .abandoned
          else .found pe sgroup
        else if cred_type == GNUTLS_CRD_CERTIFICATE then
          if selectCert pe < 0 then .abandoned
          else .found pe sgroup
        else
          .found pe sgroup
    else
      inner_loop_peer session version selectCert c rest

/-- Outer loop of the server-precedence pass, driven by the local
priority list. -/
def outer_loop_prio (session : Session) (version : VersionEntry)
    (have_etm : Bool) (selectCert : CipherSuiteEntry → Int)
    (peer_clist : List CipherSuiteEntry) :
    List CipherSuiteEntry → Option (CipherSuiteEntry × Option GroupEntry)
  | [] => none
  | c :: rest =>
    if version_check_fails session.is_dtls version c then
      outer_loop_prio session version have_etm selectCert peer_clist rest
    else if cipher_check_fails session.force_etm have_etm
        c.block_algorithm then
      outer_loop_prio session version have_etm selectCert peer_clist rest
    else
      match inner_loop_peer session version selectCert c peer_clist with
      | .found e sgroup => some (e, sgroup)
      | _ =>
        outer_loop_prio session version have_etm selectCert peer_clist rest

/-- The prerequisite step before the loops: if not under TLS 1.3
semantics, no candidate EC group is set and the peer sent no
supported-groups extension, assume the default curve. -/
def preset_default_ec_group (session : Session) (version : VersionEntry) :
    Session :=
  if !version.tls13_sem && session.cand_ec_group.isNone &&
      !session.supported_groups_ext_present then
    { session with cand_ec_group := some default_ec_group }
  else
    session

/-- `_gnutls_figure_common_ciphersuite`.  `none` models
`GNUTLS_E_NO_CIPHER_SUITES` (no negotiated version, or nothing in
common); `some (e, g)` models returning 0 with `*ce = e` after
`_gnutls_session_group_set` was applied to `g` when non-null.
`selectCert` models the `_gnutls_select_server_cert` callback. -/
def _gnutls_figure_common_ciphersuite (session : Session)
    (selectCert : CipherSuiteEntry → Int)
    (peer_clist : List CipherSuiteEntry) :
    Option (CipherSuiteEntry × Option GroupEntry) :=
  match session.version with
  | none => none
  | some version =>
    if (preset_default_ec_group session version).server_precedence =
        false then
      outer_loop_peer (preset_default_ec_group session version) version
        (session_have_etm session) selectCert peer_clist
    else
      outer_loop_prio (preset_default_ec_group session version) version
        (session_have_etm session) selectCert peer_clist
        (preset_default_ec_group session version).priorities_cs

/-! ## Client offer builder: `_gnutls_get_client_ciphersuites` -/

/-- `MAX_CIPHERSUITE_SIZE`, from `gnutls_int.h` (not in this excerpt). -/
def MAX_CIPHERSUITE_SIZE : Nat := 256

def RESERVED_CIPHERSUITES : Nat := 4

/-- Modelled from the spec: the fallback signaling value
(`GNUTLS_FALLBACK_SCSV_MAJOR`/`MINOR`, anti-downgrade indication). -/
def GNUTLS_FALLBACK_SCSV_MAJOR : Nat := 0x56

def GNUTLS_FALLBACK_SCSV_MINOR : Nat := 0x00

/-- The `CLIENT_VERSION_CHECK` macro: skip when the candidate's minimum
version for the active transport exceeds the highest locally supported
version (the `minver` argument is unused by the macro). -/
def client_version_check_fails (is_dtls : Bool) (vmax : VersionEntry)
    (e : CipherSuiteEntry) : Bool :=
  if is_dtls then decide (e.min_dtls_version > vmax.id)
  else decide (e.min_version > vmax.id)

/-- The filtering loop of `_gnutls_get_client_ciphersuites`, returning
the kept entries in order (each contributes its 2 id bytes); `count` is
the number of suites already emitted, and the loop `break`s once the
fixed capacity is reached. -/
def client_suites_loop (session : Session) (vmax : VersionEntry) :
    List CipherSuiteEntry → Nat → List CipherSuiteEntry
  | [], _ => []
  | e :: rest, count =>
    if client_version_check_fails session.is_dtls vmax e then
      client_suites_loop session vmax rest count
    else if e.kx_algorithm != GNUTLS_KX_UNKNOWN &&
        !session.premaster_set &&
        (session.creds
          (_gnutls_map_kx_get_cred e.kx_algorithm false)).isNone then
      client_suites_loop session vmax rest count
    else if e.kx_algorithm != GNUTLS_KX_UNKNOWN &&
        (e.kx_algorithm == GNUTLS_KX_SRP_RSA ||
          e.kx_algorithm == GNUTLS_KX_SRP_DSS) &&
        (session.creds GNUTLS_CRD_SRP).isNone then
      client_suites_loop session vmax rest count
    else if count + 1 ≥ MAX_CIPHERSUITE_SIZE then [e]
    else e :: client_suites_loop session vmax rest (count + 1)

/-- `_gnutls_buffer_append_data_prefix` at width 16 (external buffer
helper, allocation assumed to succeed): append a 16-bit big-endian
length followed by the payload. -/
def _gnutls_buffer_append_data_prefix16 (buf data : List Nat) :
    List Nat :=
  buf ++ [data.length / 256 % 256, data.length % 256] ++ data

/-- `_gnutls_get_client_ciphersuites` in the `ENABLE_SSL3` build, with
`_gnutls_ext_sr_send_cs` (external) modelled as succeeding.  On success
returns the new buffer contents, whether safe renegotiation was recorded
as offered (`_gnutls_hello_ext_save_sr`), and the byte-count return
value `cdata->length - init_length`. -/
def _gnutls_get_client_ciphersuites (session : Session)
    (cdata : List Nat) (_vmin : VersionEntry) (add_scsv : Bool) :
    Except Int (List Nat × Bool × Nat) :=
  match session.vmax with
  | none => .error GNUTLS_E_NO_PRIORITIES_WERE_SET
  | some vmax =>
    let kept := client_suites_loop session vmax session.priorities_cs 0
    let suites := (kept.map (fun e => [e.id0, e.id1])).flatten
    let with_scsv := if add_scsv then suites ++ [0x00, 0xff] else suites
    let payload :=
      if session.fallback then
        with_scsv ++ [GNUTLS_FALLBACK_SCSV_MAJOR,
          GNUTLS_FALLBACK_SCSV_MINOR]
      else with_scsv
    let out := _gnutls_buffer_append_data_prefix16 cdata payload
    .ok (out, add_scsv, out.length - cdata.length)

/-! ## Priority-index mapper: `gnutls_priority_get_cipher_suite_index` -/

/-- The slice of `gnutls_priority_t` the mapper reads: the protocol
priority ids and the cipher-suite priority entries.  The latter are
pointers into `cs_algorithms` in the code and are modelled as registry
indices. -/
structure PriorityCache where
  protocol_priorities : List Nat
  cs : List Nat
deriving DecidableEq, Repr

/-- The maxima-finding loop of the mapper: fold over the protocol
priorities, updating `max_tls` for ids within the TLS range and
otherwise `max_dtls` for ids within the DTLS range, exactly as the
if/else-if chain does. -/
def max_version_scan : List Nat → Nat → Nat → Nat × Nat
  | [], max_tls, max_dtls => (max_tls, max_dtls)
  | p :: rest, max_tls, max_dtls =>
    if p ≤ GNUTLS_TLS_VERSION_MAX ∧ p ≥ max_tls then
      max_version_scan rest p max_dtls
    else if p ≤ GNUTLS_DTLS_VERSION_MAX ∧ p ≥ max_dtls then
      max_version_scan rest max_tls p
    else
      max_version_scan rest max_tls max_dtls

/-- The registry scan of the mapper, carrying the running index `i`:
skip rows other than the target; at the target, succeed when the cipher
and MAC exist and one of the two minima is enabled; `break` (ending in
the unknown-suite error) when a primitive is missing. -/
def cipher_suite_index_scan (cipher_exists mac_exists : Nat → Bool)
    (target max_tls max_dtls : Nat) :
    Nat → List CipherSuiteEntry → Except Int Nat
  | _, [] => .error GNUTLS_E_UNKNOWN_CIPHER_SUITE
  | i, e :: rest =>
    if target ≠ i then
      cipher_suite_index_scan cipher_exists mac_exists target max_tls
        max_dtls (i + 1) rest
    else if cipher_exists e.block_algorithm &&
        mac_exists e.mac_algorithm then
      if max_tls ≥ e.min_version then .ok i
      else if max_dtls ≥ e.min_dtls_version then .ok i
      else
        cipher_suite_index_scan cipher_exists mac_exists target max_tls
          max_dtls (i + 1) rest
    else
      .error GNUTLS_E_UNKNOWN_CIPHER_SUITE

/-- `gnutls_priority_get_cipher_suite_index`.  `cipher_exists` and
`mac_exists` model `_gnutls_cipher_exists` / `_gnutls_mac_exists`
(runtime availability of the primitives in the build). -/
def gnutls_priority_get_cipher_suite_index
    (cipher_exists mac_exists : Nat → Bool) (pcache : PriorityCache)
    (idx : Nat) : Except Int Nat :=
  if idx ≥ pcache.cs.length then
    .error GNUTLS_E_REQUESTED_DATA_NOT_AVAILABLE
  else
    let m := max_version_scan pcache.protocol_priorities 0 0
    cipher_suite_index_scan cipher_exists mac_exists
      (pcache.cs.getD idx 0) m.1 m.2 0 cs_algorithms

/-! ## Basic lemmas about the negotiation loops -/

theorem preset_of_ext_present (session : Session) (version : VersionEntry)
    (h : session.supported_groups_ext_present = true) :
    preset_default_ec_group session version = session := by
  unfold preset_default_ec_group
  simp [h]

theorem preset_is_dtls (session : Session) (version : VersionEntry) :
    (preset_default_ec_group session version).is_dtls = session.is_dtls := by
  unfold preset_default_ec_group
  split <;> rfl

theorem preset_psk_selected (session : Session) (version : VersionEntry) :
    (preset_default_ec_group session version).hsk_psk_selected =
      session.hsk_psk_selected := by
  unfold preset_default_ec_group
  split <;> rfl

theorem preset_binder0 (session : Session) (version : VersionEntry) :
    (preset_default_ec_group session version).binder0_prf_id =
      session.binder0_prf_id := by
  unfold preset_default_ec_group
  split <;> rfl

theorem inner_loop_prio_found (session : Session)
    (f : CipherSuiteEntry → Int) (pe : CipherSuiteEntry)
    (kx cred_type : Nat) :
    ∀ (l : List CipherSuiteEntry) (e : CipherSuiteEntry)
      (g : Option GroupEntry),
      inner_loop_prio session f pe kx cred_type l = .found e g → e = pe := by
  intro l
  induction l with
  | nil => intro e g h; simp [inner_loop_prio] at h
  | cons c rest ih =>
    intro e g h
    unfold inner_loop_prio at h
    split at h
    · split at h
      · exact ih _ _ h
      · split at h
        · split at h
          · exact ih _ _ h
          · injection h with h1 _; exact h1.symm
        · split at h
          · split at h
            · simp at h
            · injection h with h1 _; exact h1.symm
          · injection h with h1 _; exact h1.symm
    · exact ih _ _ h

theorem inner_loop_peer_found (session : Session) (version : VersionEntry)
    (f : CipherSuiteEntry → Int) (c : CipherSuiteEntry) :
    ∀ (l : List CipherSuiteEntry) (e : CipherSuiteEntry)
      (g : Option GroupEntry),
      inner_loop_peer session version f c l = .found e g → e = c := by
  intro l
  induction l with
  | nil => intro e g h; simp [inner_loop_peer] at h
  | cons pe rest ih =>
    intro e g h
    by_cases hc : c = pe
    · unfold inner_loop_peer at h
      rw [if_pos hc] at h
      cases hk : kx_is_ok session pe.kx_algorithm
          (derived_cred_type version pe.kx_algorithm) with
      | none => simp only [hk] at h; simp at h
      | some sg =>
        simp only [hk] at h
        repeat' split at h
        all_goals simp at h
        all_goals exact (hc.trans h.1).symm
    · unfold inner_loop_peer at h
      rw [if_neg hc] at h
      exact ih _ _ h

theorem preset_server_precedence (session : Session)
    (version : VersionEntry) :
    (preset_default_ec_group session version).server_precedence =
      session.server_precedence := by
  unfold preset_default_ec_group
  split <;> rfl

theorem preset_priorities_cs (session : Session) (version : VersionEntry) :
    (preset_default_ec_group session version).priorities_cs =
      session.priorities_cs := by
  unfold preset_default_ec_group
  split <;> rfl

theorem outer_loop_peer_some (session : Session) (version : VersionEntry)
    (have_etm : Bool) (f : CipherSuiteEntry → Int) :
    ∀ (l : List CipherSuiteEntry) (e : CipherSuiteEntry)
      (g : Option GroupEntry),
      outer_loop_peer session version have_etm f l = some (e, g) →
      version_check_fails session.is_dtls version e = false := by
  intro l
  induction l with
  | nil => intro e g h; simp [outer_loop_peer] at h
  | cons pe rest ih =>
    intro e g h
    unfold outer_loop_peer at h
    split at h
    · exact ih _ _ h
    · split at h
      · exact ih _ _ h
      · rename_i hv _
        cases hi : inner_loop_prio session f pe pe.kx_algorithm
            (derived_cred_type version pe.kx_algorithm)
            session.priorities_cs with
        | found e2 g2 =>
          simp only [hi] at h
          simp at h
          have hpe := inner_loop_prio_found session f pe pe.kx_algorithm
            (derived_cred_type version pe.kx_algorithm)
            session.priorities_cs e2 g2 hi
          rw [← h.1, hpe]
          simp at hv
          exact hv
        | notFound => simp only [hi] at h; exact ih _ _ h
        | abandoned => simp only [hi] at h; exact ih _ _ h

theorem outer_loop_prio_some (session : Session) (version : VersionEntry)
    (have_etm : Bool) (f : CipherSuiteEntry → Int)
    (peer_clist : List CipherSuiteEntry) :
    ∀ (l : List CipherSuiteEntry) (e : CipherSuiteEntry)
      (g : Option GroupEntry),
      outer_loop_prio session version have_etm f peer_clist l =
        some (e, g) →
      version_check_fails session.is_dtls version e = false := by
  intro l
  induction l with
  | nil => intro e g h; simp [outer_loop_prio] at h
  | cons c rest ih =>
    intro e g h
    unfold outer_loop_prio at h
    split at h
    · exact ih _ _ h
    · split at h
      · exact ih _ _ h
      · rename_i hv _
        cases hi : inner_loop_peer session version f c peer_clist with
        | found e2 g2 =>
          simp only [hi] at h
          simp at h
          have hce := inner_loop_peer_found session version f c
            peer_clist e2 g2 hi
          rw [← h.1, hce]
          simp at hv
          exact hv
        | notFound => simp only [hi] at h; exact ih _ _ h
        | abandoned => simp only [hi] at h; exact ih _ _ h

theorem figure_version_ok (session : Session)
    (f : CipherSuiteEntry → Int) (peer_clist : List CipherSuiteEntry)
    (version : VersionEntry) (e : CipherSuiteEntry)
    (g : Option GroupEntry)
    (hv : session.version = some version)
    (h : _gnutls_figure_common_ciphersuite session f peer_clist =
      some (e, g)) :
    version_check_fails session.is_dtls version e = false := by
  unfold _gnutls_figure_common_ciphersuite at h
  simp only [hv] at h
  rw [← preset_is_dtls session version]
  split at h
  · exact outer_loop_peer_some _ _ _ _ _ _ _ h
  · exact outer_loop_prio_some _ _ _ _ _ _ _ _ h

/-! ## C4: version filtering -/

/-- Concrete scenario session for the version-filter claim: negotiated
version TLS 1.2 on TLS, server precedence, priority list
`[TLS_AES_128_GCM_SHA256, TLS_RSA_WITH_AES_128_CBC_SHA]`, a certificate
credential configured, no PSK selected. -/
def c4_session : Session where
  is_dtls := false
  version := some { id := GNUTLS_TLS1_2, tls13_sem := false }
  vmax := some { id := GNUTLS_TLS1_2, tls13_sem := false }
  server_precedence := true
  force_etm := false
  etm_ext_priv := none
  supported_groups_ext_present := true
  cand_ec_group := none
  cand_dh_group := none
  hsk_have_ffdhe := false
  hsk_psk_selected := false
  binder0_prf_id := 0
  creds := fun t =>
    if t = GNUTLS_CRD_CERTIFICATE then some ⟨false, false, false⟩
    else none
  premaster_set := false
  fallback := false
  priorities_cs := [GNUTLS_AES_128_GCM_SHA256, GNUTLS_RSA_AES_128_CBC_SHA1]

/-- C4: every candidate whose version range for the active transport
does not bracket the negotiated version is skipped — any negotiation
outcome passes `VERSION_CHECK`; and in the concrete scenario with
PriorityList `[TLS_AES_128_GCM_SHA256, TLS_RSA_WITH_AES_128_CBC_SHA]`,
PeerList `[TLS_RSA_WITH_AES_128_CBC_SHA]` and negotiated version
TLS 1.2, the outcome is `TLS_RSA_WITH_AES_128_CBC_SHA` (the 1.3-only
suite is filtered by version despite being first in priority order). -/
theorem negotiation_version_filter :
    (∀ (session : Session) (f : CipherSuiteEntry → Int)
        (peer_clist : List CipherSuiteEntry) (version : VersionEntry)
        (e : CipherSuiteEntry) (g : Option GroupEntry),
        session.version = some version →
        _gnutls_figure_common_ciphersuite session f peer_clist =
          some (e, g) →
        version_check_fails session.is_dtls version e = false) ∧
    (∀ f : CipherSuiteEntry → Int,
        f GNUTLS_RSA_AES_128_CBC_SHA1 ≥ 0 →
        _gnutls_figure_common_ciphersuite c4_session f
          [GNUTLS_RSA_AES_128_CBC_SHA1] =
          some (GNUTLS_RSA_AES_128_CBC_SHA1, none)) := by
  constructor
  · exact fun s f p v e g hv h => figure_version_ok s f p v e g hv h
  · intro f hf
    have hnot : ¬ f GNUTLS_RSA_AES_128_CBC_SHA1 < 0 := not_lt.mpr hf
    unfold _gnutls_figure_common_ciphersuite
    simp only [c4_session]
    rw [preset_of_ext_present _ _ rfl]
    simp only [c4_session]
    norm_num [outer_loop_prio, inner_loop_peer, version_check_fails,
      cipher_check_fails, kx_is_ok, derived_cred_type,
      _gnutls_map_kx_get_cred, _gnutls_kx_is_ecc, _gnutls_kx_is_dhe,
      check_server_dh_params, _gnutls_kx_needs_dh_params,
      session_have_etm, GNUTLS_RSA_AES_128_CBC_SHA1,
      GNUTLS_AES_128_GCM_SHA256, ENTRY, ENTRY_TLS13,
      GNUTLS_KX_RSA, GNUTLS_KX_ANON_ECDH, GNUTLS_KX_ECDHE_RSA,
      GNUTLS_KX_ECDHE_ECDSA, GNUTLS_KX_ECDHE_PSK, GNUTLS_KX_DHE_DSS,
      GNUTLS_KX_DHE_RSA, GNUTLS_KX_ANON_DH, GNUTLS_KX_DHE_PSK,
      GNUTLS_KX_SRP, GNUTLS_KX_SRP_RSA, GNUTLS_KX_SRP_DSS,
      GNUTLS_KX_PSK, GNUTLS_KX_RSA_PSK, GNUTLS_CRD_ANON,
      GNUTLS_CRD_SRP, GNUTLS_CRD_PSK, GNUTLS_CRD_CERTIFICATE,
      GNUTLS_SSL3, GNUTLS_TLS1_2, GNUTLS_TLS1_3,
      GNUTLS_VERSION_UNKNOWN, GNUTLS_CIPHER_AES_128_CBC,
      GNUTLS_CIPHER_AES_128_GCM, GNUTLS_MAC_SHA1, GNUTLS_MAC_SHA256,
      GNUTLS_MAC_AEAD, GNUTLS_DTLS_VERSION_MIN, GNUTLS_DTLS1_0,
      GNUTLS_DTLS1_2] at hnot ⊢
    rw [if_neg (not_lt.mpr hnot)]

theorem negotiation_version_filter_witness :
    (fun _ : CipherSuiteEntry => (0 : Int)) GNUTLS_RSA_AES_128_CBC_SHA1 ≥
        0 ∧
      _gnutls_figure_common_ciphersuite c4_session (fun _ => 0)
          [GNUTLS_RSA_AES_128_CBC_SHA1] =
        some (GNUTLS_RSA_AES_128_CBC_SHA1, none) :=
  ⟨by decide, negotiation_version_filter.2 (fun _ => 0) (by decide)⟩

/-! ## C10: the unknown-version sentinel is never selectable -/

theorem figure_outcome_min_known (session : Session)
    (f : CipherSuiteEntry → Int) (peer_clist : List CipherSuiteEntry)
    (version : VersionEntry) (e : CipherSuiteEntry)
    (g : Option GroupEntry)
    (hv : session.version = some version)
    (h : _gnutls_figure_common_ciphersuite session f peer_clist =
      some (e, g)) :
    (session.is_dtls = true →
      e.min_dtls_version ≠ GNUTLS_VERSION_UNKNOWN) ∧
    (session.is_dtls = false →
      e.min_version ≠ GNUTLS_VERSION_UNKNOWN) := by
  have hvc := figure_version_ok session f peer_clist version e g hv h
  unfold version_check_fails at hvc
  constructor
  · intro hd
    rw [hd] at hvc
    simp at hvc
    exact hvc.1.1
  · intro hd
    rw [hd] at hvc
    simp at hvc
    exact hvc.1.1

/-- Concrete DTLS 1.2 session used to witness the sentinel claim:
client precedence, same lists as the TLS scenario. -/
def c10_session : Session :=
  { c4_session with
      is_dtls := true
      version := some { id := GNUTLS_DTLS1_2, tls13_sem := false }
      server_precedence := false }

/-- C10: server-side negotiation never selects a suite whose
minimum-version field for the active transport is the unknown-version
sentinel; in particular on a DTLS transport the outcome is never a
registry row built by `ENTRY_TLS13` (whose DTLS bounds are the
sentinel). -/
theorem no_unknown_min_version_selected :
    (∀ (session : Session) (f : CipherSuiteEntry → Int)
        (peer_clist : List CipherSuiteEntry) (version : VersionEntry)
        (e : CipherSuiteEntry) (g : Option GroupEntry),
        session.version = some version →
        _gnutls_figure_common_ciphersuite session f peer_clist =
          some (e, g) →
        (session.is_dtls = true →
          e.min_dtls_version ≠ GNUTLS_VERSION_UNKNOWN) ∧
        (session.is_dtls = false →
          e.min_version ≠ GNUTLS_VERSION_UNKNOWN)) ∧
    (∀ (session : Session) (f : CipherSuiteEntry → Int)
        (peer_clist : List CipherSuiteEntry) (version : VersionEntry)
        (e : CipherSuiteEntry) (g : Option GroupEntry)
        (name canonical : String) (id0 id1 alg minv prf : Nat),
        session.is_dtls = true →
        session.version = some version →
        _gnutls_figure_common_ciphersuite session f peer_clist =
          some (e, g) →
        e ≠ ENTRY_TLS13 name id0 id1 canonical alg minv prf) := by
  constructor
  · exact fun s f p v e g hv h =>
      figure_outcome_min_known s f p v e g hv h
  · intro s f p v e g name canonical id0 id1 alg minv prf hd hv h heq
    have hk := (figure_outcome_min_known s f p v e g hv h).1 hd
    rw [heq] at hk
    exact hk rfl

theorem no_unknown_min_version_selected_witness :
    c10_session.is_dtls = true ∧
    _gnutls_figure_common_ciphersuite c10_session (fun _ => 0)
        [GNUTLS_AES_128_GCM_SHA256, GNUTLS_RSA_AES_128_CBC_SHA1] =
      some (GNUTLS_RSA_AES_128_CBC_SHA1, none) ∧
    GNUTLS_RSA_AES_128_CBC_SHA1 ≠
      ENTRY_TLS13 "GNUTLS_AES_128_GCM_SHA256" 0x13 0x01
        "TLS_AES_128_GCM_SHA256" GNUTLS_CIPHER_AES_128_GCM GNUTLS_TLS1_3
        GNUTLS_MAC_SHA256 :=
  ⟨rfl, by decide,
    no_unknown_min_version_selected.2 c10_session (fun _ => 0)
      [GNUTLS_AES_128_GCM_SHA256, GNUTLS_RSA_AES_128_CBC_SHA1]
      { id := GNUTLS_DTLS1_2, tls13_sem := false }
      GNUTLS_RSA_AES_128_CBC_SHA1 none "GNUTLS_AES_128_GCM_SHA256"
      "TLS_AES_128_GCM_SHA256" 0x13 0x01 GNUTLS_CIPHER_AES_128_GCM
      GNUTLS_TLS1_3 GNUTLS_MAC_SHA256 rfl rfl (by decide)⟩

/-! ## C5: PSK binder PRF filtering -/

theorem inner_loop_prio_psk_prf (session : Session)
    (f : CipherSuiteEntry → Int) (pe : CipherSuiteEntry)
    (kx cred_type : Nat) (hp : session.hsk_psk_selected = true) :
    ∀ (l : List CipherSuiteEntry) (e : CipherSuiteEntry)
      (g : Option GroupEntry),
      inner_loop_prio session f pe kx cred_type l = .found e g →
      e.prf = session.binder0_prf_id := by
  intro l
  induction l with
  | nil => intro e g h; simp [inner_loop_prio] at h
  | cons c rest ih =>
    intro e g h
    by_cases hc : c = pe
    · unfold inner_loop_prio at h
      rw [if_pos hc] at h
      cases hk : kx_is_ok session kx cred_type with
      | none => simp only [hk] at h; exact ih _ _ h
      | some sg =>
        simp only [hk, hp, if_true] at h
        by_cases hb : session.binder0_prf_id ≠ c.prf
        · rw [if_pos hb] at h
          exact ih _ _ h
        · rw [if_neg hb] at h
          injection h with h1 _
          rw [← h1, ← hc]
          exact (not_not.mp hb).symm
    · unfold inner_loop_prio at h
      rw [if_neg hc] at h
      exact ih _ _ h

theorem inner_loop_prio_psk_independent (session : Session)
    (pe : CipherSuiteEntry) (kx cred_type : Nat)
    (hp : session.hsk_psk_selected = true) :
    ∀ (l : List CipherSuiteEntry) (f f2 : CipherSuiteEntry → Int),
      inner_loop_prio session f pe kx cred_type l =
        inner_loop_prio session f2 pe kx cred_type l := by
  intro l
  induction l with
  | nil => intro f f2; rfl
  | cons c rest ih =>
    intro f f2
    by_cases hc : c = pe
    · unfold inner_loop_prio
      rw [if_pos hc, if_pos hc]
      cases hk : kx_is_ok session kx cred_type with
      | none => simp only [hk]; exact ih _ _
      | some sg =>
        simp only [hk, hp, if_true]
        by_cases hb : session.binder0_prf_id ≠ c.prf
        · rw [if_pos hb, if_pos hb]; exact ih _ _
        · rw [if_neg hb, if_neg hb]
    · unfold inner_loop_prio
      rw [if_neg hc, if_neg hc]
      exact ih _ _

theorem inner_loop_peer_psk_prf (session : Session)
    (version : VersionEntry) (f : CipherSuiteEntry → Int)
    (c : CipherSuiteEntry) (hp : session.hsk_psk_selected = true) :
    ∀ (l : List CipherSuiteEntry) (e : CipherSuiteEntry)
      (g : Option GroupEntry),
      inner_loop_peer session version f c l = .found e g →
      e.prf = session.binder0_prf_id := by
  intro l
  induction l with
  | nil => intro e g h; simp [inner_loop_peer] at h
  | cons pe rest ih =>
    intro e g h
    by_cases hc : c = pe
    · unfold inner_loop_peer at h
      rw [if_pos hc] at h
      cases hk : kx_is_ok session pe.kx_algorithm
          (derived_cred_type version pe.kx_algorithm) with
      | none => simp only [hk] at h; simp at h
      | some sg =>
        simp only [hk, hp, if_true] at h
        by_cases hb : session.binder0_prf_id ≠ c.prf
        · rw [if_pos hb] at h; simp at h
        · rw [if_neg hb] at h
          injection h with h1 _
          rw [← h1, ← hc]
          exact (not_not.mp hb).symm
    · unfold inner_loop_peer at h
      rw [if_neg hc] at h
      exact ih _ _ h

theorem inner_loop_peer_psk_independent (session : Session)
    (version : VersionEntry) (c : CipherSuiteEntry)
    (hp : session.hsk_psk_selected = true) :
    ∀ (l : List CipherSuiteEntry) (f f2 : CipherSuiteEntry → Int),
      inner_loop_peer session version f c l =
        inner_loop_peer session version f2 c l := by
  intro l
  induction l with
  | nil => intro f f2; rfl
  | cons pe rest ih =>
    intro f f2
    by_cases hc : c = pe
    · unfold inner_loop_peer
      rw [if_pos hc, if_pos hc]
      cases hk : kx_is_ok session pe.kx_algorithm
          (derived_cred_type version pe.kx_algorithm) with
      | none => simp only [hk]
      | some sg => simp only [hk, hp, if_true]
    · unfold inner_loop_peer
      rw [if_neg hc, if_neg hc]
      exact ih _ _

theorem outer_loop_peer_psk_prf (session : Session)
    (version : VersionEntry) (have_etm : Bool)
    (f : CipherSuiteEntry → Int) (hp : session.hsk_psk_selected = true) :
    ∀ (l : List CipherSuiteEntry) (e : CipherSuiteEntry)
      (g : Option GroupEntry),
      outer_loop_peer session version have_etm f l = some (e, g) →
      e.prf = session.binder0_prf_id := by
  intro l
  induction l with
  | nil => intro e g h; simp [outer_loop_peer] at h
  | cons pe rest ih =>
    intro e g h
    unfold outer_loop_peer at h
    split at h
    · exact ih _ _ h
    · split at h
      · exact ih _ _ h
      · cases hi : inner_loop_prio session f pe pe.kx_algorithm
            (derived_cred_type version pe.kx_algorithm)
            session.priorities_cs with
        | found e2 g2 =>
          simp only [hi] at h
          simp at h
          rw [← h.1]
          exact inner_loop_prio_psk_prf session f pe pe.kx_algorithm
            (derived_cred_type version pe.kx_algorithm) hp
            session.priorities_cs e2 g2 hi
        | notFound => simp only [hi] at h; exact ih _ _ h
        | abandoned => simp only [hi] at h; exact ih _ _ h

theorem outer_loop_peer_psk_independent (session : Session)
    (version : VersionEntry) (have_etm : Bool)
    (hp : session.hsk_psk_selected = true) :
    ∀ (l : List CipherSuiteEntry) (f f2 : CipherSuiteEntry → Int),
      outer_loop_peer session version have_etm f l =
        outer_loop_peer session version have_etm f2 l := by
  intro l
  induction l with
  | nil => intro f f2; rfl
  | cons pe rest ih =>
    intro f f2
    unfold outer_loop_peer
    split
    · exact ih _ _
    · split
      · exact ih _ _
      · dsimp only
        rw [inner_loop_prio_psk_independent session pe pe.kx_algorithm
          (derived_cred_type version pe.kx_algorithm) hp
          session.priorities_cs f f2]
        cases inner_loop_prio session f2 pe pe.kx_algorithm
            (derived_cred_type version pe.kx_algorithm)
            session.priorities_cs with
        | found e2 g2 => rfl
        | notFound => exact ih _ _
        | abandoned => exact ih _ _

theorem outer_loop_prio_psk_prf (session : Session)
    (version : VersionEntry) (have_etm : Bool)
    (f : CipherSuiteEntry → Int) (peer_clist : List CipherSuiteEntry)
    (hp : session.hsk_psk_selected = true) :
    ∀ (l : List CipherSuiteEntry) (e : CipherSuiteEntry)
      (g : Option GroupEntry),
      outer_loop_prio session version have_etm f peer_clist l =
        some (e, g) →
      e.prf = session.binder0_prf_id := by
  intro l
  induction l with
  | nil => intro e g h; simp [outer_loop_prio] at h
  | cons c rest ih =>
    intro e g h
    unfold outer_loop_prio at h
    split at h
    · exact ih _ _ h
    · split at h
      · exact ih _ _ h
      · cases hi : inner_loop_peer session version f c peer_clist with
        | found e2 g2 =>
          simp only [hi] at h
          simp at h
          rw [← h.1]
          exact inner_loop_peer_psk_prf session version f c hp
            peer_clist e2 g2 hi
        | notFound => simp only [hi] at h; exact ih _ _ h
        | abandoned => simp only [hi] at h; exact ih _ _ h

theorem outer_loop_prio_psk_independent (session : Session)
    (version : VersionEntry) (have_etm : Bool)
    (peer_clist : List CipherSuiteEntry)
    (hp : session.hsk_psk_selected = true) :
    ∀ (l : List CipherSuiteEntry) (f f2 : CipherSuiteEntry → Int),
      outer_loop_prio session version have_etm f peer_clist l =
        outer_loop_prio session version have_etm f2 peer_clist l := by
  intro l
  induction l with
  | nil => intro f f2; rfl
  | cons c rest ih =>
    intro f f2
    unfold outer_loop_prio
    split
    · exact ih _ _
    · split
      · exact ih _ _
      · rw [inner_loop_peer_psk_independent session version c hp
          peer_clist f f2]
        cases inner_loop_peer session version f2 c peer_clist with
        | found e2 g2 => rfl
        | notFound => exact ih _ _
        | abandoned => exact ih _ _

/-- Concrete PSK scenario session: a PSK binder bound to SHA-256 was
selected, the lists agree on `TLS_PSK_WITH_AES_128_CBC_SHA`. -/
def c5_session : Session :=
  { c4_session with
      hsk_psk_selected := true
      binder0_prf_id := GNUTLS_MAC_SHA256
      server_precedence := false
      priorities_cs := [GNUTLS_PSK_AES_128_CBC_SHA1] }

/-- C5: whenever a PSK identity/binder was already selected, every
candidate whose PRF differs from the PRF of the first offered binder is
excluded — any outcome's PRF equals the binder PRF — and certificate
selection is never invoked: the outcome does not depend on the
certificate-selection callback at all. -/
theorem psk_binder_prf_filter (session : Session)
    (hp : session.hsk_psk_selected = true) :
    (∀ (f : CipherSuiteEntry → Int)
        (peer_clist : List CipherSuiteEntry) (e : CipherSuiteEntry)
        (g : Option GroupEntry),
        _gnutls_figure_common_ciphersuite session f peer_clist =
          some (e, g) →
        e.prf = session.binder0_prf_id) ∧
    (∀ (f f2 : CipherSuiteEntry → Int)
        (peer_clist : List CipherSuiteEntry),
        _gnutls_figure_common_ciphersuite session f peer_clist =
          _gnutls_figure_common_ciphersuite session f2 peer_clist) := by
  constructor
  · intro f peer_clist e g h
    unfold _gnutls_figure_common_ciphersuite at h
    cases hv : session.version with
    | none => simp [hv] at h
    | some version =>
      simp only [hv] at h
      have hp2 :
          (preset_default_ec_group session version).hsk_psk_selected =
            true := by
        rw [preset_psk_selected]; exact hp
      rw [← preset_binder0 session version]
      split at h
      · exact outer_loop_peer_psk_prf _ _ _ _ hp2 _ _ _ h
      · exact outer_loop_prio_psk_prf _ _ _ _ _ hp2 _ _ _ h
  · intro f f2 peer_clist
    unfold _gnutls_figure_common_ciphersuite
    cases hv : session.version with
    | none => rfl
    | some version =>
      simp only [hv]
      have hp2 :
          (preset_default_ec_group session version).hsk_psk_selected =
            true := by
        rw [preset_psk_selected]; exact hp
      split
      · exact outer_loop_peer_psk_independent _ _ _ hp2 _ _ _
      · exact outer_loop_prio_psk_independent _ _ _ _ hp2 _ _ _

theorem psk_binder_prf_filter_witness :
    c5_session.hsk_psk_selected = true ∧
    _gnutls_figure_common_ciphersuite c5_session (fun _ => -1)
        [GNUTLS_PSK_AES_128_CBC_SHA1] =
      _gnutls_figure_common_ciphersuite c5_session (fun _ => 0)
        [GNUTLS_PSK_AES_128_CBC_SHA1] ∧
    GNUTLS_PSK_AES_128_CBC_SHA1.prf = c5_session.binder0_prf_id :=
  ⟨rfl,
    (psk_binder_prf_filter c5_session rfl).2 (fun _ => -1) (fun _ => 0)
      [GNUTLS_PSK_AES_128_CBC_SHA1],
    (psk_binder_prf_filter c5_session rfl).1 (fun _ => 0)
      [GNUTLS_PSK_AES_128_CBC_SHA1] GNUTLS_PSK_AES_128_CBC_SHA1 none
      (by decide)⟩

/-! ## C1: certificate-selection failure abandons the inner loop -/

/-- C1: in both passes, when the outer candidate's derived credential
type is certificate-based, no PSK was selected, `kx_is_ok` passed and
the certificate callback fails at the first matching inner position,
the whole remaining inner list is abandoned (the result is `abandoned`
whatever the remaining inner candidates `rest` are), and the outer loop
then proceeds directly with the next outer candidate. -/
theorem cert_fail_abandons_inner :
    (∀ (session : Session) (f : CipherSuiteEntry → Int)
        (pe : CipherSuiteEntry) (kx : Nat)
        (pre rest : List CipherSuiteEntry) (g : Option GroupEntry),
        pe ∉ pre →
        session.hsk_psk_selected = false →
        kx_is_ok session kx GNUTLS_CRD_CERTIFICATE = some g →
        f pe < 0 →
        inner_loop_prio session f pe kx GNUTLS_CRD_CERTIFICATE
          (pre ++ pe :: rest) = .abandoned) ∧
    (∀ (session : Session) (version : VersionEntry) (have_etm : Bool)
        (f : CipherSuiteEntry → Int) (pe : CipherSuiteEntry)
        (rest_outer : List CipherSuiteEntry),
        version_check_fails session.is_dtls version pe = false →
        cipher_check_fails session.force_etm have_etm
          pe.block_algorithm = false →
        inner_loop_prio session f pe pe.kx_algorithm
          (derived_cred_type version pe.kx_algorithm)
          session.priorities_cs = .abandoned →
        outer_loop_peer session version have_etm f (pe :: rest_outer) =
          outer_loop_peer session version have_etm f rest_outer) ∧
    (∀ (session : Session) (version : VersionEntry)
        (f : CipherSuiteEntry → Int) (c : CipherSuiteEntry)
        (pre rest : List CipherSuiteEntry) (g : Option GroupEntry),
        c ∉ pre →
        session.hsk_psk_selected = false →
        derived_cred_type version c.kx_algorithm =
          GNUTLS_CRD_CERTIFICATE →
        kx_is_ok session c.kx_algorithm
          (derived_cred_type version c.kx_algorithm) = some g →
        f c < 0 →
        inner_loop_peer session version f c (pre ++ c :: rest) =
          .abandoned) ∧
    (∀ (session : Session) (version : VersionEntry) (have_etm : Bool)
        (f : CipherSuiteEntry → Int)
        (peer_clist : List CipherSuiteEntry) (c : CipherSuiteEntry)
        (rest_outer : List CipherSuiteEntry),
        version_check_fails session.is_dtls version c = false →
        cipher_check_fails session.force_etm have_etm
          c.block_algorithm = false →
        inner_loop_peer session version f c peer_clist = .abandoned →
        outer_loop_prio session version have_etm f peer_clist
          (c :: rest_outer) =
          outer_loop_prio session version have_etm f peer_clist
            rest_outer) := by
  refine ⟨?_, ?_, ?_, ?_⟩
  · intro session f pe kx pre rest g hpre hpsk hk hf
    induction pre with
    | nil =>
      rw [List.nil_append]
      unfold inner_loop_prio
      rw [if_pos rfl]
      simp only [hk, hpsk]
      rw [if_pos hf]
      simp
    | cons a pre ih =>
      have ha : ¬(a = pe) := fun h => hpre (h ▸ List.mem_cons_self a pre)
      rw [List.cons_append]
      unfold inner_loop_prio
      rw [if_neg ha]
      exact ih (fun h => hpre (List.mem_cons_of_mem a h))
  · intro session version have_etm f pe rest_outer hv hc hi
    conv_lhs => unfold outer_loop_peer
    rw [if_neg (by simp [hv]), if_neg (by simp [hc])]
    dsimp only
    simp only [hi]
  · intro session version f c pre rest g hpre hpsk hcred hk hf
    induction pre with
    | nil =>
      rw [List.nil_append]
      unfold inner_loop_peer
      rw [if_pos rfl]
      simp [hcred, hk, hpsk, hf]
      cases kx_is_ok session c.kx_algorithm GNUTLS_CRD_CERTIFICATE <;>
        rfl
    | cons a pre ih =>
      have ha : ¬(c = a) := fun h => hpre (h ▸ List.mem_cons_self a pre)
      rw [List.cons_append]
      unfold inner_loop_peer
      rw [if_neg ha]
      exact ih (fun h => hpre (List.mem_cons_of_mem a h))
  · intro session version have_etm f peer_clist c rest_outer hv hc hi
    conv_lhs => unfold outer_loop_prio
    rw [if_neg (by simp [hv]), if_neg (by simp [hc])]
    simp only [hi]

/-- Concrete session for the abandonment witness: two RSA suites in the
priority list, certificate credential, no PSK. -/
def c1_session : Session :=
  { c4_session with
      priorities_cs :=
        [GNUTLS_RSA_AES_128_CBC_SHA1, GNUTLS_RSA_AES_256_CBC_SHA1] }

def c1_version : VersionEntry := { id := GNUTLS_TLS1_2, tls13_sem := false }

theorem cert_fail_abandons_inner_witness :
    inner_loop_prio c1_session (fun _ => -1) GNUTLS_RSA_AES_128_CBC_SHA1
        GNUTLS_KX_RSA GNUTLS_CRD_CERTIFICATE
        ([] ++ GNUTLS_RSA_AES_128_CBC_SHA1 ::
          [GNUTLS_RSA_AES_256_CBC_SHA1]) = .abandoned ∧
    outer_loop_peer c1_session c1_version false (fun _ => -1)
        (GNUTLS_RSA_AES_128_CBC_SHA1 :: []) =
      outer_loop_peer c1_session c1_version false (fun _ => -1) [] ∧
    inner_loop_peer c1_session c1_version (fun _ => -1)
        GNUTLS_RSA_AES_128_CBC_SHA1
        ([] ++ GNUTLS_RSA_AES_128_CBC_SHA1 ::
          [GNUTLS_RSA_AES_256_CBC_SHA1]) = .abandoned ∧
    outer_loop_prio c1_session c1_version false (fun _ => -1)
        [GNUTLS_RSA_AES_128_CBC_SHA1]
        (GNUTLS_RSA_AES_128_CBC_SHA1 :: []) =
      outer_loop_prio c1_session c1_version false (fun _ => -1)
        [GNUTLS_RSA_AES_128_CBC_SHA1] [] :=
  ⟨cert_fail_abandons_inner.1 c1_session (fun _ => -1) _ _ [] _ none
      (by simp) rfl (by decide) (by decide),
    cert_fail_abandons_inner.2.1 c1_session c1_version false
      (fun _ => -1) _ [] (by decide) (by decide) (by decide),
    cert_fail_abandons_inner.2.2.1 c1_session c1_version (fun _ => -1)
      _ [] _ none (by simp) rfl (by decide) (by decide) (by decide),
    cert_fail_abandons_inner.2.2.2 c1_session c1_version false
      (fun _ => -1) _ _ [] (by decide) (by decide) (by decide)⟩

/-! ## C2: the server-precedence flag decides whose order wins -/

/-- C2: for suites `A ≠ B` that are mutually supported
(version-compatible, cipher-check clean, `kx_is_ok`-satisfiable, no PSK
selected, certificate selection succeeding when applicable), with local
priority order `[A, B]` and peer order `[B, A]`: server precedence
enabled selects `A`, disabled selects `B`. -/
theorem server_precedence_order (session : Session)
    (version : VersionEntry) (f : CipherSuiteEntry → Int)
    (A B : CipherSuiteEntry) (gA gB : Option GroupEntry)
    (hv : session.version = some version)
    (hext : session.supported_groups_ext_present = true)
    (hne : A ≠ B)
    (hprio : session.priorities_cs = [A, B])
    (hpsk : session.hsk_psk_selected = false)
    (hvA : version_check_fails session.is_dtls version A = false)
    (hvB : version_check_fails session.is_dtls version B = false)
    (hcA : cipher_check_fails session.force_etm
      (session_have_etm session) A.block_algorithm = false)
    (hcB : cipher_check_fails session.force_etm
      (session_have_etm session) B.block_algorithm = false)
    (hkA : kx_is_ok session A.kx_algorithm
      (derived_cred_type version A.kx_algorithm) = some gA)
    (hkB : kx_is_ok session B.kx_algorithm
      (derived_cred_type version B.kx_algorithm) = some gB)
    (hfA : ¬ f A < 0)
    (hfB : ¬ f B < 0) :
    (session.server_precedence = true →
      _gnutls_figure_common_ciphersuite session f [B, A] =
        some (A, gA)) ∧
    (session.server_precedence = false →
      _gnutls_figure_common_ciphersuite session f [B, A] =
        some (B, gB)) := by
  have hpre := preset_of_ext_present session version hext
  constructor
  · intro hsp
    have h1 : inner_loop_peer session version f A [B, A] =
        .found A gA := by
      unfold inner_loop_peer
      rw [if_neg hne]
      unfold inner_loop_peer
      rw [if_pos rfl]
      dsimp only
      simp only [hkA]
      rw [if_neg (by simp [hpsk])]
      by_cases hcred : derived_cred_type version A.kx_algorithm =
          GNUTLS_CRD_CERTIFICATE
      · rw [if_pos (by simp [hcred]), if_neg hfA]
      · rw [if_neg (by simp [hcred])]
    unfold _gnutls_figure_common_ciphersuite
    simp only [hv, hpre]
    rw [if_neg (by simp [hsp])]
    rw [hprio]
    conv_lhs => unfold outer_loop_prio
    rw [if_neg (by simp [hvA]), if_neg (by simp [hcA])]
    simp only [h1]
  · intro hsp
    have h1 : inner_loop_prio session f B B.kx_algorithm
        (derived_cred_type version B.kx_algorithm) [A, B] =
        .found B gB := by
      unfold inner_loop_prio
      rw [if_neg hne]
      unfold inner_loop_prio
      rw [if_pos rfl]
      simp only [hkB]
      rw [if_neg (by simp [hpsk])]
      by_cases hcred : derived_cred_type version B.kx_algorithm =
          GNUTLS_CRD_CERTIFICATE
      · rw [if_pos (by simp [hcred]), if_neg hfB]
      · rw [if_neg (by simp [hcred])]
    unfold _gnutls_figure_common_ciphersuite
    simp only [hv, hpre]
    rw [if_pos hsp]
    conv_lhs => unfold outer_loop_peer
    rw [if_neg (by simp [hvB]), if_neg (by simp [hcB])]
    dsimp only
    rw [hprio, h1]

def c2_session (prec : Bool) : Session :=
  { c4_session with
      server_precedence := prec
      priorities_cs :=
        [GNUTLS_RSA_AES_128_CBC_SHA1, GNUTLS_RSA_AES_256_CBC_SHA1] }

theorem server_precedence_order_witness :
    _gnutls_figure_common_ciphersuite (c2_session true) (fun _ => 0)
        [GNUTLS_RSA_AES_256_CBC_SHA1, GNUTLS_RSA_AES_128_CBC_SHA1] =
      some (GNUTLS_RSA_AES_128_CBC_SHA1, none) ∧
    _gnutls_figure_common_ciphersuite (c2_session false) (fun _ => 0)
        [GNUTLS_RSA_AES_256_CBC_SHA1, GNUTLS_RSA_AES_128_CBC_SHA1] =
      some (GNUTLS_RSA_AES_256_CBC_SHA1, none) :=
  ⟨(server_precedence_order (c2_session true) c1_version (fun _ => 0)
      GNUTLS_RSA_AES_128_CBC_SHA1 GNUTLS_RSA_AES_256_CBC_SHA1 none none
      rfl rfl (by decide) rfl rfl (by decide) (by decide) (by decide)
      (by decide) (by decide) (by decide) (by decide) (by decide)).1
      rfl,
    (server_precedence_order (c2_session false) c1_version (fun _ => 0)
      GNUTLS_RSA_AES_128_CBC_SHA1 GNUTLS_RSA_AES_256_CBC_SHA1 none none
      rfl rfl (by decide) rfl rfl (by decide) (by decide) (by decide)
      (by decide) (by decide) (by decide) (by decide) (by decide)).2
      rfl⟩

/-! ## C3: DHE candidates and server DH parameters -/

/-- The disjunction `check_server_dh_params` tests on the
credential-type-specific structure: explicit DH parameters, a
parameter-generation callback, or a security-parameter
auto-selection. -/
def credentials_have_dh_params (session : Session)
    (cred_type : Nat) : Bool :=
  match session.creds cred_type with
  | some c => c.dh_params || c.params_func || c.dh_sec_param
  | none => false

/-- C3: for a DHE-family candidate evaluated with its derived credential
type: if a DH group was already negotiated the check passes selecting
that group; otherwise it passes exactly when the peer did not advertise
FFDHE and the credential structure has DH parameters, a callback, or an
auto-selection configured (so with the FFDHE flag set it fails
regardless of static parameters). -/
theorem dhe_candidate_dh_requirements (session : Session) (kx : Nat)
    (hdhe : _gnutls_kx_is_dhe kx = true) :
    (∀ g : GroupEntry, session.cand_dh_group = some g →
      kx_is_ok session kx (_gnutls_map_kx_get_cred kx true) =
        some (some g)) ∧
    (session.cand_dh_group = none →
      ((kx_is_ok session kx
          (_gnutls_map_kx_get_cred kx true)).isSome ↔
        (session.hsk_have_ffdhe = false ∧
          credentials_have_dh_params session
            (_gnutls_map_kx_get_cred kx true) = true))) := by
  have hkx : kx = GNUTLS_KX_DHE_DSS ∨ kx = GNUTLS_KX_DHE_RSA ∨
      kx = GNUTLS_KX_ANON_DH ∨ kx = GNUTLS_KX_DHE_PSK := by
    have h2 := hdhe
    simp [_gnutls_kx_is_dhe] at h2
    tauto
  rcases hkx with h | h | h | h <;> subst h <;> constructor <;>
      first
      | (intro g hg
         simp [kx_is_ok, _gnutls_kx_is_ecc, _gnutls_kx_is_dhe,
           _gnutls_map_kx_get_cred, check_server_dh_params,
           _gnutls_kx_needs_dh_params, hg, GNUTLS_KX_DHE_DSS,
           GNUTLS_KX_DHE_RSA, GNUTLS_KX_ANON_DH, GNUTLS_KX_DHE_PSK,
           GNUTLS_KX_ANON_ECDH, GNUTLS_KX_ECDHE_RSA,
           GNUTLS_KX_ECDHE_ECDSA, GNUTLS_KX_ECDHE_PSK, GNUTLS_KX_SRP,
           GNUTLS_KX_SRP_RSA, GNUTLS_KX_SRP_DSS, GNUTLS_KX_PSK,
           GNUTLS_KX_RSA_PSK, GNUTLS_CRD_CERTIFICATE, GNUTLS_CRD_ANON,
           GNUTLS_CRD_PSK, GNUTLS_CRD_SRP])
      | (intro hg
         simp [kx_is_ok, _gnutls_kx_is_ecc, _gnutls_kx_is_dhe,
           _gnutls_map_kx_get_cred, check_server_dh_params,
           _gnutls_kx_needs_dh_params, credentials_have_dh_params, hg,
           GNUTLS_KX_DHE_DSS, GNUTLS_KX_DHE_RSA, GNUTLS_KX_ANON_DH,
           GNUTLS_KX_DHE_PSK, GNUTLS_KX_ANON_ECDH, GNUTLS_KX_ECDHE_RSA,
           GNUTLS_KX_ECDHE_ECDSA, GNUTLS_KX_ECDHE_PSK, GNUTLS_KX_SRP,
           GNUTLS_KX_SRP_RSA, GNUTLS_KX_SRP_DSS, GNUTLS_KX_PSK,
           GNUTLS_KX_RSA_PSK, GNUTLS_CRD_CERTIFICATE, GNUTLS_CRD_ANON,
           GNUTLS_CRD_PSK, GNUTLS_CRD_SRP]
         cases hff : session.hsk_have_ffdhe <;> simp [hff] <;>
           cases hc : session.creds _ <;> simp [hc] <;>
           (try split_ifs with hP) <;> (try simp_all))

def c3_session : Session :=
  { c4_session with cand_dh_group := some { id := 7 } }

theorem dhe_candidate_dh_requirements_witness :
    _gnutls_kx_is_dhe GNUTLS_KX_DHE_RSA = true ∧
    kx_is_ok c3_session GNUTLS_KX_DHE_RSA
        (_gnutls_map_kx_get_cred GNUTLS_KX_DHE_RSA true) =
      some (some { id := 7 }) ∧
    ((kx_is_ok c4_session GNUTLS_KX_DHE_RSA
        (_gnutls_map_kx_get_cred GNUTLS_KX_DHE_RSA true)).isSome ↔
      (c4_session.hsk_have_ffdhe = false ∧
        credentials_have_dh_params c4_session
          (_gnutls_map_kx_get_cred GNUTLS_KX_DHE_RSA true) = true)) :=
  ⟨by decide,
    (dhe_candidate_dh_requirements c3_session GNUTLS_KX_DHE_RSA
      (by decide)).1 { id := 7 } rfl,
    (dhe_candidate_dh_requirements c4_session GNUTLS_KX_DHE_RSA
      (by decide)).2 rfl⟩

/-! ## C6: default EC group preset (corrected) -/

/-- A session with TLS 1.3 semantics, no candidate EC group and no
supported-groups extension: the prerequisite step installs nothing. -/
def c6_session : Session :=
  { c4_session with
      version := some { id := GNUTLS_TLS1_3, tls13_sem := true }
      supported_groups_ext_present := false }

def c6_version : VersionEntry := { id := GNUTLS_TLS1_3, tls13_sem := true }

/-- C6 counterexample: under TLS 1.3 semantics the prerequisite step
does not install the default curve even though no EC group was
negotiated and the peer sent no supported-groups extension — the claim
as stated (which omits the non-TLS-1.3 condition) is false. -/
theorem preset_default_ec_group_tls13_cex :
    c6_session.cand_ec_group = none ∧
    c6_session.supported_groups_ext_present = false ∧
    (preset_default_ec_group c6_session c6_version).cand_ec_group =
      none ∧
    (preset_default_ec_group c6_session c6_version).cand_ec_group ≠
      some default_ec_group := by
  refine ⟨rfl, rfl, rfl, ?_⟩
  intro h
  simp [preset_default_ec_group, c6_session, c6_version, c4_session]
    at h

/-- C6 as amended: when additionally the negotiated version does not
use TLS 1.3 semantics, the prerequisite step installs the default
(secp256r1-equivalent) curve as the session's candidate EC group. -/
theorem preset_default_ec_group_legacy (session : Session)
    (version : VersionEntry)
    (h13 : version.tls13_sem = false)
    (hc : session.cand_ec_group = none)
    (hext : session.supported_groups_ext_present = false) :
    (preset_default_ec_group session version).cand_ec_group =
      some default_ec_group := by
  unfold preset_default_ec_group
  rw [if_pos (by simp [h13, hc, hext])]

theorem preset_default_ec_group_legacy_witness :
    (preset_default_ec_group
        { c6_session with
            version := some { id := GNUTLS_TLS1_2, tls13_sem := false } }
        { id := GNUTLS_TLS1_2, tls13_sem := false }).cand_ec_group =
      some default_ec_group :=
  preset_default_ec_group_legacy _ _ rfl rfl rfl

/-! ## C7/C8: the client offer builder -/

theorem client_suites_loop_version (session : Session)
    (vmax : VersionEntry) :
    ∀ (l : List CipherSuiteEntry) (count : Nat) (e : CipherSuiteEntry),
      e ∈ client_suites_loop session vmax l count →
      client_version_check_fails session.is_dtls vmax e = false := by
  intro l
  induction l with
  | nil => intro count e h; simp [client_suites_loop] at h
  | cons a rest ih =>
    intro count e h
    by_cases hv : client_version_check_fails session.is_dtls vmax a =
        true
    · unfold client_suites_loop at h
      rw [if_pos hv] at h
      exact ih _ _ h
    · have hvf : client_version_check_fails session.is_dtls vmax a =
          false := by simpa using hv
      unfold client_suites_loop at h
      rw [if_neg hv] at h
      split at h
      · exact ih _ _ h
      · split at h
        · exact ih _ _ h
        · split at h
          · simp at h; subst h; exact hvf
          · simp at h
            rcases h with h | h
            · subst h; exact hvf
            · exact ih _ _ h

theorem client_suites_loop_length (session : Session)
    (vmax : VersionEntry) :
    ∀ (l : List CipherSuiteEntry) (count : Nat),
      count < MAX_CIPHERSUITE_SIZE →
      (client_suites_loop session vmax l count).length ≤
        MAX_CIPHERSUITE_SIZE - count := by
  intro l
  induction l with
  | nil => intro count h; simp [client_suites_loop]
  | cons a rest ih =>
    intro count hcount
    unfold client_suites_loop
    split
    · exact ih _ hcount
    · split
      · exact ih _ hcount
      · split
        · exact ih _ hcount
        · split
          · simp only [List.length_cons, List.length_nil]
            omega
          · rename_i hcap
            simp only [List.length_cons]
            have h2 : count + 1 < MAX_CIPHERSUITE_SIZE := by omega
            have h3 := ih (count + 1) h2
            omega

theorem suites_bytes_length (l : List CipherSuiteEntry) :
    ((l.map fun e => [e.id0, e.id1]).flatten).length = 2 * l.length := by
  induction l with
  | nil => rfl
  | cons a rest ih =>
    simp only [List.map_cons, List.flatten_cons, List.length_append,
      List.length_cons, List.length_nil, ih]
    omega

/-- C8: the suites the client offer takes from the priority list all
pass `CLIENT_VERSION_CHECK` — none has a minimum version for the active
transport above the highest locally supported version — and their
number never exceeds the fixed capacity `MAX_CIPHERSUITE_SIZE`
(the `vmin` bound is not consulted by the check, matching the macro). -/
theorem client_offer_version_and_capacity (session : Session)
    (_vmin vmax : VersionEntry) :
    (∀ e ∈ client_suites_loop session vmax session.priorities_cs 0,
      client_version_check_fails session.is_dtls vmax e = false) ∧
    (client_suites_loop session vmax
      session.priorities_cs 0).length ≤ MAX_CIPHERSUITE_SIZE := by
  constructor
  · exact fun e h => client_suites_loop_version session vmax _ _ _ h
  · have h := client_suites_loop_length session vmax
      session.priorities_cs 0 (by norm_num [MAX_CIPHERSUITE_SIZE])
    simpa using h

theorem client_offer_version_and_capacity_witness :
    client_version_check_fails false
        { id := GNUTLS_TLS1_2, tls13_sem := false }
        GNUTLS_RSA_AES_128_CBC_SHA1 = false ∧
    (client_suites_loop c4_session
        { id := GNUTLS_TLS1_2, tls13_sem := false }
        c4_session.priorities_cs 0).length ≤ MAX_CIPHERSUITE_SIZE :=
  ⟨(client_offer_version_and_capacity c4_session
      { id := GNUTLS_TLS1_2, tls13_sem := false }
      { id := GNUTLS_TLS1_2, tls13_sem := false }).1
      GNUTLS_RSA_AES_128_CBC_SHA1 (by decide),
    (client_offer_version_and_capacity c4_session
      { id := GNUTLS_TLS1_2, tls13_sem := false }
      { id := GNUTLS_TLS1_2, tls13_sem := false }).2⟩

/-- C7: with safe-renegotiation signaling requested, the builder appends
the `{0x00, 0xff}` pseudo-suite after the filtered suite ids, records
that safe renegotiation was offered, further appends the fallback
pseudo-suite when the fallback flag is set, serializes a 16-bit length
prefix that decodes to the exact byte count of the suite-id payload
including the appended signaling values, and returns the number of
bytes written (prefix plus payload). -/
theorem client_offer_scsv_and_length16 (session : Session)
    (cdata : List Nat) (vmin vmax : VersionEntry)
    (hv : session.vmax = some vmax) :
    ∃ payload : List Nat,
      payload =
        ((client_suites_loop session vmax session.priorities_cs 0).map
          (fun e => [e.id0, e.id1])).flatten ++ [0x00, 0xff] ++
        (if session.fallback then
          [GNUTLS_FALLBACK_SCSV_MAJOR, GNUTLS_FALLBACK_SCSV_MINOR]
        else []) ∧
      _gnutls_get_client_ciphersuites session cdata vmin true =
        .ok (cdata ++
          [payload.length / 256 % 256, payload.length % 256] ++ payload,
          true, 2 + payload.length) ∧
      256 * (payload.length / 256 % 256) + payload.length % 256 =
        payload.length := by
  refine ⟨_, rfl, ?_, ?_⟩
  · unfold _gnutls_get_client_ciphersuites
    simp only [hv]
    unfold _gnutls_buffer_append_data_prefix16
    cases hf : session.fallback <;>
      simp [hf, List.append_assoc, List.length_append] <;> omega
  · have hM : MAX_CIPHERSUITE_SIZE = 256 := rfl
    have hk := client_suites_loop_length session vmax
      session.priorities_cs 0 (by norm_num [MAX_CIPHERSUITE_SIZE])
    have hb := suites_bytes_length
      (client_suites_loop session vmax session.priorities_cs 0)
    cases hf : session.fallback <;>
      simp [hf, List.length_append, hb] <;> omega

theorem client_offer_scsv_and_length16_witness :
    (∃ payload : List Nat,
      payload =
        ((client_suites_loop c4_session
            { id := GNUTLS_TLS1_2, tls13_sem := false }
            c4_session.priorities_cs 0).map
          (fun e => [e.id0, e.id1])).flatten ++ [0x00, 0xff] ++
        (if c4_session.fallback then
          [GNUTLS_FALLBACK_SCSV_MAJOR, GNUTLS_FALLBACK_SCSV_MINOR]
        else []) ∧
      _gnutls_get_client_ciphersuites c4_session []
          { id := GNUTLS_SSL3, tls13_sem := false } true =
        .ok ([] ++
          [payload.length / 256 % 256, payload.length % 256] ++ payload,
          true, 2 + payload.length) ∧
      256 * (payload.length / 256 % 256) + payload.length % 256 =
        payload.length) ∧
    _gnutls_get_client_ciphersuites c4_session []
        { id := GNUTLS_SSL3, tls13_sem := false } true =
      .ok ([0, 4, 0x00, 0x2F, 0x00, 0xFF], true, 6) :=
  ⟨client_offer_scsv_and_length16 c4_session []
      { id := GNUTLS_SSL3, tls13_sem := false }
      { id := GNUTLS_TLS1_2, tls13_sem := false } rfl,
    rfl⟩

/-! ## C9: the priority-index mapper (corrected) -/

theorem cipher_suite_index_scan_gt (cipher_exists mac_exists : Nat → Bool)
    (target max_tls max_dtls : Nat) :
    ∀ (l : List CipherSuiteEntry) (i : Nat), target < i →
      cipher_suite_index_scan cipher_exists mac_exists target max_tls
        max_dtls i l = .error GNUTLS_E_UNKNOWN_CIPHER_SUITE := by
  intro l
  induction l with
  | nil => intro i h; rfl
  | cons e rest ih =>
    intro i h
    unfold cipher_suite_index_scan
    rw [if_pos (by omega)]
    exact ih (i + 1) (by omega)

theorem cipher_suite_index_scan_at (cipher_exists mac_exists : Nat → Bool)
    (target max_tls max_dtls : Nat) :
    ∀ (l : List CipherSuiteEntry) (i : Nat) (e : CipherSuiteEntry),
      i ≤ target → l.get? (target - i) = some e →
      cipher_suite_index_scan cipher_exists mac_exists target max_tls
        max_dtls i l =
        (if cipher_exists e.block_algorithm &&
            mac_exists e.mac_algorithm then
          if max_tls ≥ e.min_version ∨
              max_dtls ≥ e.min_dtls_version then
            .ok target
          else .error GNUTLS_E_UNKNOWN_CIPHER_SUITE
        else .error GNUTLS_E_UNKNOWN_CIPHER_SUITE) := by
  intro l
  induction l with
  | nil => intro i e hi hget; simp at hget
  | cons a rest ih =>
    intro i e hi hget
    by_cases heq : target = i
    · subst heq
      rw [Nat.sub_self] at hget
      simp at hget
      subst hget
      unfold cipher_suite_index_scan
      rw [if_neg (by omega)]
      cases hb : cipher_exists a.block_algorithm &&
          mac_exists a.mac_algorithm
      · simp [hb]
      · simp only [hb, if_true]
        by_cases h1 : a.min_version ≤ max_tls
        · simp [h1]
        · by_cases h2 : a.min_dtls_version ≤ max_dtls
          · simp [h1, h2]
          · simp [h1, h2]
            exact cipher_suite_index_scan_gt cipher_exists mac_exists
              target max_tls max_dtls rest (target + 1) (by omega)
    · have hlt : i < target := by omega
      have hget2 : rest.get? (target - (i + 1)) = some e := by
        have hsub : target - i = (target - (i + 1)) + 1 := by omega
        rw [hsub] at hget
        simpa using hget
      unfold cipher_suite_index_scan
      rw [if_pos (by omega)]
      exact ih (i + 1) e (by omega) hget2

/-- Priority cache exercising the mapper counterexample: only DTLS 1.2
enabled among the protocol priorities, the single cipher-suite entry
pointing at registry row 0 (a TLS 1.3 suite). -/
def c9_pcache : PriorityCache :=
  { protocol_priorities := [GNUTLS_DTLS1_2], cs := [0] }

/-- C9 counterexample: at a valid index whose registry entry has both
primitives available, whose (TLS) minimum version does *not* exceed
both computed maxima (5 ≤ the DTLS maximum 202), the mapper still
fails with the unknown-cipher-suite error — because the code compares
the TLS minimum against the TLS maximum and the DTLS minimum against
the DTLS maximum separately, not one minimum against both. -/
theorem priority_index_mapper_cex :
    0 < c9_pcache.cs.length ∧
    cs_algorithms.get? (c9_pcache.cs.getD 0 0) =
      some GNUTLS_AES_128_GCM_SHA256 ∧
    max_version_scan c9_pcache.protocol_priorities 0 0 =
      (0, GNUTLS_DTLS1_2) ∧
    ¬(GNUTLS_AES_128_GCM_SHA256.min_version > 0 ∧
      GNUTLS_AES_128_GCM_SHA256.min_version > GNUTLS_DTLS1_2) ∧
    gnutls_priority_get_cipher_suite_index (fun _ => true)
        (fun _ => true) c9_pcache 0 =
      .error GNUTLS_E_UNKNOWN_CIPHER_SUITE :=
  ⟨by decide, by decide, by decide, by decide, rfl⟩

/-- C9 as amended: an out-of-range priority index reports "data not
available"; otherwise, for the referenced registry entry, the call
fails with "unknown cipher suite" when a primitive is unavailable or
when the entry's TLS minimum exceeds the computed TLS maximum *and* its
DTLS minimum exceeds the computed DTLS maximum; otherwise it succeeds
and yields the registry index. -/
theorem priority_index_mapper_characterization
    (cipher_exists mac_exists : Nat → Bool) (pcache : PriorityCache)
    (idx : Nat) :
    (idx ≥ pcache.cs.length →
      gnutls_priority_get_cipher_suite_index cipher_exists mac_exists
        pcache idx = .error GNUTLS_E_REQUESTED_DATA_NOT_AVAILABLE) ∧
    (∀ e : CipherSuiteEntry,
      idx < pcache.cs.length →
      cs_algorithms.get? (pcache.cs.getD idx 0) = some e →
      gnutls_priority_get_cipher_suite_index cipher_exists mac_exists
          pcache idx =
        (if cipher_exists e.block_algorithm &&
            mac_exists e.mac_algorithm then
          if (max_version_scan pcache.protocol_priorities 0 0).1 ≥
              e.min_version ∨
              (max_version_scan pcache.protocol_priorities 0 0).2 ≥
              e.min_dtls_version then
            .ok (pcache.cs.getD idx 0)
          else .error GNUTLS_E_UNKNOWN_CIPHER_SUITE
        else .error GNUTLS_E_UNKNOWN_CIPHER_SUITE)) := by
  constructor
  · intro h
    unfold gnutls_priority_get_cipher_suite_index
    rw [if_pos h]
  · intro e hlt hget
    unfold gnutls_priority_get_cipher_suite_index
    rw [if_neg (by omega)]
    exact cipher_suite_index_scan_at cipher_exists mac_exists _ _ _
      cs_algorithms 0 e (Nat.zero_le _) (by simpa using hget)

def c9w_pcache : PriorityCache :=
  { protocol_priorities := [GNUTLS_TLS1_2], cs := [7] }

theorem priority_index_mapper_characterization_witness :
    gnutls_priority_get_cipher_suite_index (fun _ => true)
        (fun _ => true) c9w_pcache 5 =
      .error GNUTLS_E_REQUESTED_DATA_NOT_AVAILABLE ∧
    gnutls_priority_get_cipher_suite_index (fun _ => true)
        (fun _ => true) c9w_pcache 0 = .ok 7 :=
  ⟨(priority_index_mapper_characterization (fun _ => true)
      (fun _ => true) c9w_pcache 5).1 (by decide),
    by
      have h := (priority_index_mapper_characterization (fun _ => true)
        (fun _ => true) c9w_pcache 0).2 GNUTLS_RSA_AES_128_CBC_SHA1
        (by decide) (by decide)
      rw [h]
      rfl⟩
